import Mathlib

/-
Verification development for the mhr_roulette_bot repository.

Shallow embedding of the request-translation and background-mutation
pipeline: the error taxonomy and triage (src/error.rs), the input
validators (src/parser/validators.rs), the settings executors
(src/executors/settings.rs), the store/statistics executors
(src/executors/generate.rs, src/executors/statistics.rs) and the
command dispatcher (src/executors/endpoint.rs).

Conventions of the embedding:
- Rust String becomes Lean String; HashSet becomes Finset (only
  membership-set semantics of the touched sets matter to the theorems).
- std::time::Duration values are carried as their millisecond count
  (every duration in the sources is built with Duration::from_millis).
- anyhow::Error is a nonempty cause chain, outermost context first;
  each cause is either a plain message (anyhow! or .context with a
  string) or one of the three typed errors of src/error.rs.
- fallible code returns Except.
-/

namespace Mhr

/-- Rendezvous status shared between a coordinator caller and its worker.
The declaring file (src/executors/utility.rs) is not part of the sources;
the three variants are exactly those referenced by every executor
(JobStatus::Pending, JobStatus::ExitSuccess, JobStatus::ExitFailure)
and match the tri-state Pending/Success/Failure of the spec. -/
inductive JobStatus
  | pending
  | exitSuccess
  | exitFailure
deriving DecidableEq, Repr

/-- src/error.rs TriageTag: declared in the order
Immediate, Delayed, Minor, NotBad, with derive(Ord). -/
inductive TriageTag
  | immediate
  | delayed
  | minor
  | notBad
deriving DecidableEq, Repr

/-- Discriminant of TriageTag in declaration order. Rust derive(Ord) on a
fieldless enum compares these discriminants, so Immediate is the LEAST
element and NotBad the GREATEST in the derived order. -/
def TriageTag.discr : TriageTag → Nat
  | .immediate => 0
  | .delayed => 1
  | .minor => 2
  | .notBad => 3

/-- src/error.rs QueryError. The chrono parse error inside InvalidDate is
external; it is carried as its message string. -/
inductive QueryError
  | invalidWeapon (param actual : String)
  | invalidDate (param actual sourceMsg : String)
  | failedToStore (raw query : String)
  | failedToAggregate (raw query : String)
deriving DecidableEq, Repr

/-- src/error.rs LogicError. -/
inductive LogicError
  | unreachableGuard (expr value info : String)
deriving DecidableEq, Repr

/-- src/error.rs CommandError. waitForMs is the Duration in milliseconds;
the io_error inside FailedToSync is carried as its message string. -/
inductive CommandError
  | timeLimitExceeded (command : String) (waitForMs : Nat)
  | failedToSync (command ioErrorMsg : String)
  | invalidArgument (arg : String)
deriving DecidableEq, Repr

/-- ErrorExt::triage for QueryError (src/error.rs lines 116-135). -/
def QueryError.triage : QueryError → Option TriageTag
  | .invalidWeapon _ _ => some .notBad
  | .invalidDate _ _ _ => some .notBad
  | .failedToStore _ _ => some .delayed
  | .failedToAggregate _ _ => some .immediate

/-- ErrorExt::triage for LogicError (src/error.rs lines 137-147). -/
def LogicError.triage : LogicError → Option TriageTag
  | .unreachableGuard _ _ _ => some .immediate

/-- ErrorExt::triage for CommandError (src/error.rs lines 149-166). -/
def CommandError.triage : CommandError → Option TriageTag
  | .timeLimitExceeded _ _ => some .immediate
  | .failedToSync _ _ => some .immediate
  | .invalidArgument _ => some .notBad

/-- One element of an anyhow::Error cause chain, as Error::chain()
yields them and as downcast_ref sees them.

A typed error enters a chain as a GENUINE element (query, logic,
command) only where the error value itself is a chain element: the
root cause of anyhow::Error::from(e), or a #[source] of another error.
downcast_ref::<T> succeeds exactly on the genuine element of type T.

A layer added by .context or .with_context is stored as a ContextError
chain element. When its payload is a string or an anyhow! message it is
a msg element; when its payload is one of the typed error values it is
a contextQuery, contextLogic or contextCommand element, whose
downcast_ref to EVERY one of the three typed errors fails (the element
is a ContextError, not the payload type), so for triage only its
presence matters. External source errors (chrono, io) also downcast to
none of the three and are carried as msg elements. -/
inductive Cause
  | msg (s : String)
  | query (e : QueryError)
  | logic (e : LogicError)
  | command (e : CommandError)
  | contextQuery (e : QueryError)
  | contextLogic (e : LogicError)
  | contextCommand (e : CommandError)
deriving DecidableEq, Repr

/-- An anyhow::Error as seen by Error::chain(): the causes from the
outermost context down to the root cause. -/
abbrev Anyhow := List Cause

/-- downcast_ref::<QueryError> on one chain element. -/
def Cause.downcastQuery : Cause → Option QueryError
  | .query e => some e
  | _ => none

/-- downcast_ref::<LogicError> on one chain element. -/
def Cause.downcastLogic : Cause → Option LogicError
  | .logic e => some e
  | _ => none

/-- downcast_ref::<CommandError> on one chain element. -/
def Cause.downcastCommand : Cause → Option CommandError
  | .command e => some e
  | _ => none

/-- The three probes produced for one cause by the flat_map body of
impl ErrorExt for anyhow::Error (src/error.rs lines 171-178). -/
def Cause.probes (c : Cause) : List (Option (Option TriageTag)) :=
  [ c.downcastQuery.map QueryError.triage,
    c.downcastLogic.map LogicError.triage,
    c.downcastCommand.map CommandError.triage ]

/-- Sort key realising the derived Ord on Option<Option<TriageTag>>:
None is below Some, nested the same way, and two tags compare by their
declaration-order discriminant. This is exactly the lexicographic order
Rust derives and Iterator::max uses. -/
def probeRank : Option (Option TriageTag) → Nat
  | none => 0
  | some none => 1
  | some (some t) => 2 + t.discr

/-- One step of Iterator::max: keep the running maximum, preferring the
new element on ties (Rust max returns the last maximum). -/
def probeStep (acc : Option (Option (Option TriageTag)))
    (x : Option (Option TriageTag)) : Option (Option (Option TriageTag)) :=
  match acc with
  | none => some x
  | some a => some (if probeRank a ≤ probeRank x then x else a)

/-- Iterator::max over probes: none for an empty iterator, otherwise the
last element of maximal rank. -/
def probesMax (xs : List (Option (Option TriageTag))) :
    Option (Option (Option TriageTag)) :=
  xs.foldl probeStep none

/-- impl ErrorExt for anyhow::Error, fn triage (src/error.rs lines
170-182): flat_map the three downcast probes over the chain, take
Iterator::max under the derived Ord, then flatten twice. -/
def anyhowTriage (chain : Anyhow) : Option TriageTag :=
  (probesMax (chain.flatMap Cause.probes)).join.join

/-- True on the chain elements whose downcast_ref to each of the three
typed errors fails: messages, external sources and every context layer
(including the ones holding a typed error value). -/
def Cause.isLayer : Cause → Bool
  | .query _ => false
  | .logic _ => false
  | .command _ => false
  | _ => true

/-- The triage tag an element contributes when the chain is walked: the
tag of a genuine typed element, nothing for a layer. -/
def Cause.foundTag : Cause → Option TriageTag
  | .query e => e.triage
  | .logic e => e.triage
  | .command e => e.triage
  | _ => none

/-- All triage tags found anywhere in a chain by downcasting its
elements. -/
def chainTags (chain : Anyhow) : List TriageTag :=
  chain.filterMap Cause.foundTag

/-- The most fatal of a list of tags: Immediate is most fatal, then
Delayed, Minor, NotBad (the least declaration-order discriminant). -/
def mostFatal (tags : List TriageTag) : Option TriageTag :=
  tags.foldl
    (fun acc t =>
      match acc with
      | none => some t
      | some a => some (if t.discr ≤ a.discr then t else a))
    none

/-- The root cause an error chain of this program is built from:
anyhow::Error::from over one of the three typed errors, or a plain
anyhow! message. -/
inductive RootCause
  | query (e : QueryError)
  | logic (e : LogicError)
  | command (e : CommandError)
  | message (s : String)
deriving DecidableEq, Repr

/-- The chain elements a QueryError root contributes after itself: only
InvalidDate has a #[source] (the external chrono parse error), which
appears as a further element downcasting to none of the three types. -/
def QueryError.sourceElems : QueryError → List Cause
  | .invalidDate _ _ sourceMsg => [Cause.msg sourceMsg]
  | _ => []

/-- The chain elements a CommandError root contributes after itself:
only FailedToSync has a #[source] (the external io error). -/
def CommandError.sourceElems : CommandError → List Cause
  | .failedToSync _ ioErrorMsg => [Cause.msg ioErrorMsg]
  | _ => []

/-- The chain a root cause unfolds to: the genuine typed element (or
message) followed by its #[source] elements. LogicError and the
remaining variants have no source, so in particular no typed element is
ever followed by another typed element — none of the three enums has
another of the three as a source. -/
def RootCause.chainElems : RootCause → List Cause
  | .query e => Cause.query e :: e.sourceElems
  | .logic e => [Cause.logic e]
  | .command e => Cause.command e :: e.sourceElems
  | .message s => [Cause.msg s]

/-- The triage tag of the root cause itself. -/
def RootCause.triage : RootCause → Option TriageTag
  | .query e => e.triage
  | .logic e => e.triage
  | .command e => e.triage
  | .message _ => none

/-- A realizable anyhow::Error of this program: any stack of context
layers (strings, anyhow! messages, or typed error values used as
context) wrapped around a root cause. Error::chain() yields the layers
outermost first, then the root and its sources. -/
def buildChain (contexts : List Cause) (root : RootCause) : Anyhow :=
  contexts ++ root.chainElems

/-- src/data/weapon.rs Weapon: 21 variants in declaration order. -/
inductive Weapon
  | greatSword
  | longSword
  | swordAndShield
  | dualBlades
  | lance
  | gunlance
  | hammer
  | huntingHorn
  | switchAxe
  | chargeBlade
  | insectGlaive
  | lightBowgun
  | heavyBowgun
  | bow
  | tackleOnly
  | counterOnly
  | meleeAttackOnly
  | skillsOnly
  | palamuteOnly
  | bomOnly
  | insectOnly
deriving DecidableEq, Repr

/-- strum IntoStaticStr with serialize_all = snake_case on Weapon:
the fixed key string of each variant. -/
def Weapon.intoStr : Weapon → String
  | .greatSword => "great_sword"
  | .longSword => "long_sword"
  | .swordAndShield => "sword_and_shield"
  | .dualBlades => "dual_blades"
  | .lance => "lance"
  | .gunlance => "gunlance"
  | .hammer => "hammer"
  | .huntingHorn => "hunting_horn"
  | .switchAxe => "switch_axe"
  | .chargeBlade => "charge_blade"
  | .insectGlaive => "insect_glaive"
  | .lightBowgun => "light_bowgun"
  | .heavyBowgun => "heavy_bowgun"
  | .bow => "bow"
  | .tackleOnly => "tackle_only"
  | .counterOnly => "counter_only"
  | .meleeAttackOnly => "melee_attack_only"
  | .skillsOnly => "skills_only"
  | .palamuteOnly => "palamute_only"
  | .bomOnly => "bom_only"
  | .insectOnly => "insect_only"

/-- Weapon::iter() of strum EnumIter: all variants in declaration order. -/
def Weapon.iterAll : List Weapon :=
  [ .greatSword, .longSword, .swordAndShield, .dualBlades, .lance,
    .gunlance, .hammer, .huntingHorn, .switchAxe, .chargeBlade,
    .insectGlaive, .lightBowgun, .heavyBowgun, .bow, .tackleOnly,
    .counterOnly, .meleeAttackOnly, .skillsOnly, .palamuteOnly,
    .bomOnly, .insectOnly ]

/-- The fixed weapon-key list: Weapon::iter().map(Into::into), as built
at the head of ValidateFor<Weapon>::validate_for and in valid_weapon. -/
def weaponKeys : List String := Weapon.iterAll.map Weapon.intoStr

/-- strum EnumString (derived FromStr) on Weapon: inverse lookup of the
snake_case key. -/
def Weapon.fromStr (s : String) : Option Weapon :=
  Weapon.iterAll.find? (fun w => w.intoStr == s)

/-- ValidateFor<Weapon>::validate_for (src/parser/validators.rs lines
215-248) on a token sequence: if every token is in the fixed key list,
return the accepted tokens themselves (the Validated handle keeps the
original iterator); otherwise collect every failing token, in order,
into one InvalidArgument whose payload joins them with a comma. -/
def validateForWeapon (args : List String) : Except CommandError (List String) :=
  if args.all (fun weaponKey => weaponKeys.contains weaponKey) then
    .ok args
  else
    .error (.invalidArgument
      (String.intercalate ", "
        (args.filter (fun weaponKey => !(weaponKeys.contains weaponKey)))))

/-- Rust collect::<Result<Vec<_>, E>>(): the values in order, or the
first error encountered. -/
def collectResults {ε α : Type} : List (Except ε α) → Except ε (List α)
  | [] => .ok []
  | .error e :: _ => .error e
  | .ok a :: rest => (collectResults rest).map (a :: ·)

/-- Accumulating worker for splitWhitespace: acc holds the reversed
characters of the piece in progress. -/
def splitWsAux : List Char → List Char → List String
  | [], acc => if acc.isEmpty then [] else [⟨acc.reverse⟩]
  | c :: rest, acc =>
    if c.isWhitespace then
      if acc.isEmpty then splitWsAux rest []
      else ⟨acc.reverse⟩ :: splitWsAux rest []
    else splitWsAux rest (c :: acc)

/-- Rust str::split_whitespace: pieces separated by whitespace runs,
with no empty pieces. (Char.isWhitespace covers the ASCII whitespace;
Rust uses the Unicode property.) -/
def splitWhitespace (s : String) : List String :=
  splitWsAux s.data []

/-- Accumulating worker for splitComma. -/
def splitCommaAux : List Char → List Char → List String
  | [], acc => [⟨acc.reverse⟩]
  | c :: rest, acc =>
    if c == ',' then ⟨acc.reverse⟩ :: splitCommaAux rest []
    else splitCommaAux rest (c :: acc)

/-- Rust str::split(',') over a string: the pieces between commas,
empty pieces preserved. -/
def splitComma (s : String) : List String :=
  splitCommaAux s.data []

/-- Rust str::trim: the string with leading and trailing whitespace
removed (ASCII approximation of the Unicode property, as above). -/
def rustTrim (s : String) : String :=
  ⟨((s.data.dropWhile Char.isWhitespace).reverse.dropWhile
      Char.isWhitespace).reverse⟩

/-- The per-column body of the map inside valid_weapon
(src/executors/statistics.rs lines 113-125): boolinator as_result of
the key-list membership, wrapped with the validation context. -/
def weaponColCheck (column : String) : Except Anyhow String :=
  if weaponKeys.contains column then
    .ok column
  else
    .error [Cause.msg "validation error.",
            Cause.query (.invalidWeapon "weapon_keys" column)]

/-- valid_weapon (src/executors/statistics.rs lines 104-128): split the
filter on commas, trim each piece, check each against the fixed
weapon-key list; each failing piece becomes a QueryError::InvalidWeapon
wrapped with the context message, and the pieces are collected with
Rust collect over Result, which stops at the first error; on success
join the validated keys with a comma. -/
def valid_weapon (columns : String) : Except Anyhow String :=
  (collectResults
      (((splitComma columns).map rustTrim).map weaponColCheck)).map
    (String.intercalate ", ")

/-- Character class [1-9] of QUEST_ID_REGEX. -/
def isDigit19 (c : Char) : Bool := c.isDigit && !(c == '0')

/-- Unanchored is_match of QUEST_ID_REGEX = ([1-9])-([0-9])+
(src/parser/validators.rs line 35): a match exists in a character list
iff some position starts with a digit 1-9, a dash, and at least one
digit 0-9. -/
def questIdIsMatchAux : List Char → Bool
  | c1 :: c2 :: c3 :: rest =>
    (isDigit19 c1 && c2 == '-' && c3.isDigit)
      || questIdIsMatchAux (c2 :: c3 :: rest)
  | _ => false

/-- QUEST_ID_REGEX.is_match on a token. -/
def questIdIsMatch (s : String) : Bool := questIdIsMatchAux s.data

/-- Last character of the maximal digit run that starts with c and
continues into the list. -/
def digitRunLast (c : Char) : List Char → Char
  | [] => c
  | d :: rest => if d.isDigit then digitRunLast d rest else c

/-- regex_captures!(([1-9])-([0-9])+, token) of the leftmost match, as
the regex crate resolves it: the first position where the pattern can
match, the greedy plus consuming the maximal digit run; group 1 is the
rank digit and the repeated group 2 captures its last iteration, the
final digit of the run. -/
def questCapturesAux : List Char → Option (Char × Char)
  | c1 :: c2 :: c3 :: rest =>
    if isDigit19 c1 && c2 == '-' && c3.isDigit then
      some (c1, digitRunLast c3 rest)
    else
      questCapturesAux (c2 :: c3 :: rest)
  | _ => none

/-- src/data/quests.rs QuestID(pub u32, pub u32): field 0 is the rank,
field 1 the index within the rank. -/
structure QuestID where
  rank : Nat
  index : Nat
deriving DecidableEq, Repr

/-- Numeric value of an ASCII digit character. -/
def digitVal (c : Char) : Nat := c.toNat - 48

/-- Validated<Args, QuestID>::parse (src/parser/validators.rs lines
46-62): capture rank and index from each accepted token and collect;
a token without captures becomes the context error of that line. -/
def parseQuestIDs (accepted : List String) : Except Anyhow (List QuestID) :=
  collectResults (accepted.map (fun questId =>
    match questCapturesAux questId.data with
    | some (r, n) => .ok (QuestID.mk (digitVal r) (digitVal n))
    | none => .error [Cause.msg "regex_captures failed."]))

/-- ValidateFor<QuestID>::validate_for (src/parser/validators.rs lines
142-174): accept iff every token matches QUEST_ID_REGEX somewhere;
otherwise collect every non-matching token, in order, comma-joined. -/
def validateForQuestID (args : List String) : Except CommandError (List String) :=
  if args.all (fun questId => questIdIsMatch questId) then
    .ok args
  else
    .error (.invalidArgument
      (String.intercalate ", "
        (args.filter (fun questId => !(questIdIsMatch questId)))))

/-- src/data/monsters.rs Monster: 44 variants in declaration order. -/
inductive Monster
  | greatIzuchi
  | greatBaggi
  | kuluYaKu
  | greatWroggi
  | arzuros
  | lagombi
  | aknosom
  | royalLudroth
  | barroth
  | khezu
  | teranadon
  | bishaten
  | pukeiPukei
  | jyuratodus
  | basarios
  | somnacanth
  | rathian
  | barioth
  | tobiKadachi
  | magnamolo
  | anjanath
  | nargacuga
  | mizutsune
  | gossHarag
  | ratharos
  | almudron
  | zinogre
  | tigrex
  | diablos
  | raknaKadaki
  | kushalaDaora
  | chameleos
  | teostra
  | rajang
  | bazelgeuse
  | thunderSerpentNarwa
  | narwaTheAllmother
  | crimsonGlowValstrax
  | apexArzuros
  | apexRathian
  | apexMizutsune
  | apexRathalos
  | apexDiablos
  | apexZinogre
deriving DecidableEq, Repr

/-- Monster::iter() of strum EnumIter: declaration order. -/
def Monster.iterAll : List Monster :=
  [ .greatIzuchi, .greatBaggi, .kuluYaKu, .greatWroggi, .arzuros,
    .lagombi, .aknosom, .royalLudroth, .barroth, .khezu, .teranadon,
    .bishaten, .pukeiPukei, .jyuratodus, .basarios, .somnacanth,
    .rathian, .barioth, .tobiKadachi, .magnamolo, .anjanath,
    .nargacuga, .mizutsune, .gossHarag, .ratharos, .almudron,
    .zinogre, .tigrex, .diablos, .raknaKadaki, .kushalaDaora,
    .chameleos, .teostra, .rajang, .bazelgeuse, .thunderSerpentNarwa,
    .narwaTheAllmother, .crimsonGlowValstrax, .apexArzuros,
    .apexRathian, .apexMizutsune, .apexRathalos, .apexDiablos,
    .apexZinogre ]

/-- strum snake_case serialization of Monster variant names, used by the
derived FromStr. -/
def Monster.strumStr : Monster → String
  | .greatIzuchi => "great_izuchi"
  | .greatBaggi => "great_baggi"
  | .kuluYaKu => "kulu_ya_ku"
  | .greatWroggi => "great_wroggi"
  | .arzuros => "arzuros"
  | .lagombi => "lagombi"
  | .aknosom => "aknosom"
  | .royalLudroth => "royal_ludroth"
  | .barroth => "barroth"
  | .khezu => "khezu"
  | .teranadon => "teranadon"
  | .bishaten => "bishaten"
  | .pukeiPukei => "pukei_pukei"
  | .jyuratodus => "jyuratodus"
  | .basarios => "basarios"
  | .somnacanth => "somnacanth"
  | .rathian => "rathian"
  | .barioth => "barioth"
  | .tobiKadachi => "tobi_kadachi"
  | .magnamolo => "magnamolo"
  | .anjanath => "anjanath"
  | .nargacuga => "nargacuga"
  | .mizutsune => "mizutsune"
  | .gossHarag => "goss_harag"
  | .ratharos => "ratharos"
  | .almudron => "almudron"
  | .zinogre => "zinogre"
  | .tigrex => "tigrex"
  | .diablos => "diablos"
  | .raknaKadaki => "rakna_kadaki"
  | .kushalaDaora => "kushala_daora"
  | .chameleos => "chameleos"
  | .teostra => "teostra"
  | .rajang => "rajang"
  | .bazelgeuse => "bazelgeuse"
  | .thunderSerpentNarwa => "thunder_serpent_narwa"
  | .narwaTheAllmother => "narwa_the_allmother"
  | .crimsonGlowValstrax => "crimson_glow_valstrax"
  | .apexArzuros => "apex_arzuros"
  | .apexRathian => "apex_rathian"
  | .apexMizutsune => "apex_mizutsune"
  | .apexRathalos => "apex_rathalos"
  | .apexDiablos => "apex_diablos"
  | .apexZinogre => "apex_zinogre"

/-- Monster::ja(): the Japanese strum property of each variant. -/
def Monster.ja : Monster → String
  | .greatIzuchi => "オサイズチ"
  | .greatBaggi => "ドスバギィ"
  | .kuluYaKu => "クルルヤック"
  | .greatWroggi => "ドスフロギィ"
  | .arzuros => "アオアシラ"
  | .lagombi => "ラングロトラ"
  | .aknosom => "アケノシルム"
  | .royalLudroth => "ロアルドロス"
  | .barroth => "ボルボロス"
  | .khezu => "フルフル"
  | .teranadon => "ヨツミワドウ"
  | .bishaten => "ビシュテンゴ"
  | .pukeiPukei => "プケプケ"
  | .jyuratodus => "ジュラトドス"
  | .basarios => "バサルモス"
  | .somnacanth => "イソネミクニ"
  | .rathian => "リオレイア"
  | .barioth => "ベリオロス"
  | .tobiKadachi => "トビカガチ"
  | .magnamolo => "マガイマガド"
  | .anjanath => "アンジャナフ"
  | .nargacuga => "ナルガクルガ"
  | .mizutsune => "タマミツネ"
  | .gossHarag => "ゴシャハギ"
  | .ratharos => "リオレウス"
  | .almudron => "オロミドロ"
  | .zinogre => "ジンオウガ"
  | .tigrex => "ティガレックス"
  | .diablos => "ディアブロス"
  | .raknaKadaki => "ヤツカダキ"
  | .kushalaDaora => "クシャルダオラ"
  | .chameleos => "オオナズチ"
  | .teostra => "テオ・テスカトル"
  | .rajang => "ラージャン"
  | .bazelgeuse => "バゼルギウス"
  | .thunderSerpentNarwa => "ナルハタタヒメ"
  | .narwaTheAllmother => "百竜ノ淵源ナルハタタヒメ"
  | .crimsonGlowValstrax => "奇しき赫耀のバルファルク"
  | .apexArzuros => "ヌシ・アオアシラ"
  | .apexRathian => "ヌシ・リオレイア"
  | .apexMizutsune => "ヌシ・タマミツネ"
  | .apexRathalos => "ヌシ・リオレウス"
  | .apexDiablos => "ヌシ・ディアブロス"
  | .apexZinogre => "ヌシ・ジンオウガ"

/-- Monster::from_str of the derived EnumString: match on the snake_case
serialized name. -/
def Monster.fromStr (s : String) : Option Monster :=
  Monster.iterAll.find? (fun m => m.strumStr == s)

/-- ValidateFor<Monster>::validate_for (src/parser/validators.rs lines
176-213): accept iff every token equals some Monster::ja() name;
otherwise collect every failing token, in order, comma-joined. -/
def validateForMonster (args : List String) : Except CommandError (List String) :=
  if args.all (fun monster =>
      Monster.iterAll.any (fun x => x.ja == monster)) then
    .ok args
  else
    .error (.invalidArgument
      (String.intercalate ", "
        (args.filter (fun monster =>
          !(Monster.iterAll.any (fun x => x.ja == monster))))))

/-- Validated<Args, Monster>::parse (src/parser/validators.rs lines
64-79): Monster::from_str on each accepted token, wrapped with the
context of that line; strum produces the fixed message on failure. -/
def parseMonsters (accepted : List String) : Except Anyhow (List Monster) :=
  collectResults (accepted.map (fun monster =>
    match Monster.fromStr monster with
    | some m => .ok m
    | none => .error [Cause.msg "parse failed.",
                      Cause.msg "Matching variant not found"]))

/-- Validated<Args, Weapon>::parse (src/parser/validators.rs lines
81-95): Weapon::from_str on each accepted token. -/
def parseWeapons (accepted : List String) : Except Anyhow (List Weapon) :=
  collectResults (accepted.map (fun weapon =>
    match Weapon.fromStr weapon with
    | some w => .ok w
    | none => .error [Cause.msg "parse failed.",
                      Cause.msg "Matching variant not found"]))

/-- SmartCast<QuestID> for String (src/executors/settings.rs lines
330-342): split on whitespace, validate every token against the quest
regex, parse the captures, collect into a set. A CommandError from the
validator enters the anyhow chain as its sole cause. -/
def smartCastQuestID (arg : String) : Except Anyhow (Finset QuestID) := do
  let accepted ← (validateForQuestID (splitWhitespace arg)).mapError
    (fun e => [Cause.command e])
  let qs ← parseQuestIDs accepted
  return qs.toFinset

/-- SmartCast<Monster> for String (src/executors/settings.rs lines
344-356). -/
def smartCastMonster (arg : String) : Except Anyhow (Finset Monster) := do
  let accepted ← (validateForMonster (splitWhitespace arg)).mapError
    (fun e => [Cause.command e])
  let ms ← parseMonsters accepted
  return ms.toFinset

/-- SmartCast<Weapon> for String (src/executors/settings.rs lines
358-370). -/
def smartCastWeapon (arg : String) : Except Anyhow (Finset Weapon) := do
  let accepted ← (validateForWeapon (splitWhitespace arg)).mapError
    (fun e => [Cause.command e])
  let ws ← parseWeapons accepted
  return ws.toFinset

/-- serenity User restricted to the two fields the executors read:
user.id.0 and user.name. -/
structure User where
  id : Nat
  name : String
deriving DecidableEq, Repr

/-- src/data/config.rs Range { lower: usize, upper: usize }. -/
structure Range where
  lower : Nat
  upper : Nat
deriving DecidableEq, Repr

/-- The quest/monster/weapon triple of sets shared by the Target and
Excluded structs of src/data/config.rs. The executors in
src/executors/settings.rs store the parsed QuestID/Monster/Weapon
values in these sets, and only membership-set semantics of the HashSet
is observable, so the sets are carried as Finsets of the typed values. -/
structure TargetSets where
  quest : Finset QuestID
  monster : Finset Monster
  weapon : Finset Weapon
deriving DecidableEq

/-- src/data/config.rs Settings. -/
structure Settings where
  range : Range
  target : TargetSets
  excluded : TargetSets
deriving DecidableEq

/-- src/data/config.rs Config. -/
structure Config where
  members : Finset User
  settings : Settings
deriving DecidableEq

/-- src/model/response/commands.rs Options. -/
inductive Options
  | set
  | add
  | remove
deriving DecidableEq, Repr

/-- src/model/response/commands.rs Choices. -/
inductive Choices
  | quest
  | monster
  | weapon
deriving DecidableEq, Repr

/-- Rust i64 value reinterpreted by an `as usize` cast on a 64-bit
target: the value modulo 2^64. -/
def i64AsUsize (i : Int) : Nat := (i % (2 ^ 64 : Int)).toNat

/-- The mutation body of the range worker (src/executors/settings.rs
lines 280-284): overwrite settings.range with the submitted pair, each
component cast with `as usize`. No clamping, swapping or rejection. -/
def rangeBody (lower upper : Int) (cfg : Config) : Config :=
  { cfg with settings :=
    { cfg.settings with range :=
      { lower := i64AsUsize lower, upper := i64AsUsize upper } } }

/-- The mutation body of the exclude worker (src/executors/settings.rs
lines 382-432). Set overwrites the chosen excluded set with the parsed
set; the Add for-loop inserts every parsed element, which yields the
union; the Remove for-loop removes every parsed element, which yields
the set difference. Any smart_cast failure propagates out of the body. -/
def excludeBody (opt : Options) (choice : Choices) (arg : String)
    (config : Config) : Except Anyhow Config :=
  match opt, choice with
  | .set, .quest =>
    (smartCastQuestID arg).map (fun quests =>
      { config with settings := { config.settings with
          excluded := { config.settings.excluded with quest := quests } } })
  | .set, .monster =>
    (smartCastMonster arg).map (fun monsters =>
      { config with settings := { config.settings with
          excluded := { config.settings.excluded with monster := monsters } } })
  | .set, .weapon =>
    (smartCastWeapon arg).map (fun weapons =>
      { config with settings := { config.settings with
          excluded := { config.settings.excluded with weapon := weapons } } })
  | .add, .quest =>
    (smartCastQuestID arg).map (fun quests =>
      { config with settings := { config.settings with
          excluded := { config.settings.excluded with
            quest := config.settings.excluded.quest ∪ quests } } })
  | .add, .monster =>
    (smartCastMonster arg).map (fun monsters =>
      { config with settings := { config.settings with
          excluded := { config.settings.excluded with
            monster := config.settings.excluded.monster ∪ monsters } } })
  | .add, .weapon =>
    (smartCastWeapon arg).map (fun weapons =>
      { config with settings := { config.settings with
          excluded := { config.settings.excluded with
            weapon := config.settings.excluded.weapon ∪ weapons } } })
  | .remove, .quest =>
    (smartCastQuestID arg).map (fun quests =>
      { config with settings := { config.settings with
          excluded := { config.settings.excluded with
            quest := config.settings.excluded.quest \ quests } } })
  | .remove, .monster =>
    (smartCastMonster arg).map (fun monsters =>
      { config with settings := { config.settings with
          excluded := { config.settings.excluded with
            monster := config.settings.excluded.monster \ monsters } } })
  | .remove, .weapon =>
    (smartCastWeapon arg).map (fun weapons =>
      { config with settings := { config.settings with
          excluded := { config.settings.excluded with
            weapon := config.settings.excluded.weapon \ weapons } } })

/-- serenity ApplicationCommandInteractionDataOptionValue restricted to
the variants the translators inspect. -/
inductive OptionValue
  | string (s : String)
  | integer (i : Int)
  | boolean (b : Bool)
  | user (u : User)
  | role (id : Nat)
  | channel (id : Nat)
deriving DecidableEq, Repr

/-- src/model/response/structure.rs SlashCommand. -/
inductive SlashCommand
  | command (s : String)
  | subCommand (s : String)
  | option (v : OptionValue)
deriving DecidableEq, Repr

/-- src/model/response/structure.rs Component. -/
inductive Component
  | button (s : String)
  | selectMenu (xs : List String)
deriving DecidableEq, Repr

/-- src/model/response/structure.rs Response. -/
inductive Response
  | slashCommand (c : SlashCommand)
  | component (c : Component)
deriving DecidableEq, Repr

/-- src/model/response/commands.rs Commands. -/
inductive Commands
  | version
  | settings
  | generate
  | statistics
deriving DecidableEq, Repr

/-- src/model/response/commands.rs About. -/
inductive About
  | quest
  | monster
  | weapon
  | members
deriving DecidableEq, Repr

/-- src/model/response/commands.rs SettingsSubCommands. -/
inductive SettingsSubCommands
  | info (a : About)
  | membersCmd (o : Options) (users : List User)
  | range (lower upper : Int)
  | exclude (o : Options) (c : Choices) (arg : String)
  | target (o : Options) (c : Choices) (arg : String)
  | obliterate (c : Choices)
deriving DecidableEq, Repr

/-- Debug rendering of a Rust String. -/
def dbgStr (s : String) : String := "\"" ++ s ++ "\""

/-- Debug rendering of the embedded OptionValue (the derived Debug of
the serenity value renders richer structures; the theorems never
inspect these strings). -/
def OptionValue.dbg : OptionValue → String
  | .string s => "String(" ++ dbgStr s ++ ")"
  | .integer i => "Integer(" ++ toString i ++ ")"
  | .boolean b => "Boolean(" ++ (if b then "true" else "false") ++ ")"
  | .user u => "User(" ++ toString u.id ++ ", " ++ dbgStr u.name ++ ")"
  | .role id => "Role(" ++ toString id ++ ")"
  | .channel id => "Channel(" ++ toString id ++ ")"

/-- Debug rendering of the embedded SlashCommand. -/
def SlashCommand.dbg : SlashCommand → String
  | .command s => "Command(" ++ dbgStr s ++ ")"
  | .subCommand s => "SubCommand(" ++ dbgStr s ++ ")"
  | .option v => "Option(" ++ v.dbg ++ ")"

/-- Debug rendering of the embedded Component. -/
def Component.dbg : Component → String
  | .button s => "Button(" ++ dbgStr s ++ ")"
  | .selectMenu xs =>
    "SelectMenu([" ++ String.intercalate ", " (xs.map dbgStr) ++ "])"

/-- Debug rendering of the embedded Response. -/
def Response.dbg : Response → String
  | .slashCommand c => "SlashCommand(" ++ c.dbg ++ ")"
  | .component c => "Component(" ++ c.dbg ++ ")"

/-- Debug rendering of a (field name, Response) pair. -/
def dbgPair (p : String × Response) : String :=
  "(" ++ dbgStr p.1 ++ ", " ++ p.2.dbg ++ ")"

/-- Debug rendering of a Response slice. -/
def dbgResponses (items : List Response) : String :=
  "[" ++ String.intercalate ", " (items.map Response.dbg) ++ "]"

/-- TranslateTo<Commands> for Response
(src/model/response/translators.rs lines 118-142): only a
SlashCommand::Command whose name is one of the four registered command
names translates; anything else is a plain anyhow error. -/
def translateToCommands (r : Response) : Except Anyhow Commands :=
  match r with
  | .slashCommand (.command cmd) =>
    if cmd == "version" then .ok .version
    else if cmd == "settings" then .ok .settings
    else if cmd == "generate" then .ok .generate
    else if cmd == "statistics" then .ok .statistics
    else .error [Cause.msg ("ERROR: cannot translate to Commands " ++ r.dbg)]
  | unknown =>
    .error [Cause.msg ("ERROR: cannot translate to Commands " ++ unknown.dbg)]

/-- TranslateTo<String> for Response (translators.rs lines 44-56). -/
def translateToString (r : Response) : Except Anyhow String :=
  match r with
  | .slashCommand (.option (.string v)) => .ok v
  | other => .error [Cause.msg ("cannot translate to String: " ++ other.dbg)]

/-- TranslateTo<i64> for Response (translators.rs lines 58-74): a native
Integer option, or a String option that parses as an integer. -/
def translateToI64 (r : Response) : Except Anyhow Int :=
  match r with
  | .slashCommand (.option (.integer v)) => .ok v
  | .slashCommand (.option (.string v)) =>
    match v.toInt? with
    | some i => .ok i
    | none => .error [Cause.msg ("cannot translate to Integer: " ++ r.dbg)]
  | other => .error [Cause.msg ("cannot translate to Integer: " ++ other.dbg)]

/-- TranslateTo<User> for Response (translators.rs lines 76-88). -/
def translateToUser (r : Response) : Except Anyhow User :=
  match r with
  | .slashCommand (.option (.user u)) => .ok u
  | other => .error [Cause.msg ("cannot translate to User: " ++ other.dbg)]

/-- TranslateTo<Options> for Response (translators.rs lines 144-161). -/
def translateToOptions (r : Response) : Except Anyhow Options :=
  match r with
  | .slashCommand (.option (.string opt)) =>
    if opt == "set" then .ok .set
    else if opt == "add" then .ok .add
    else if opt == "remove" then .ok .remove
    else .error [Cause.msg ("ERROR: cannot translate: " ++ opt)]
  | other => .error [Cause.msg ("ERROR: cannot translate: " ++ other.dbg)]

/-- TranslateTo<Choices> for Response (translators.rs lines 163-180). -/
def translateToChoices (r : Response) : Except Anyhow Choices :=
  match r with
  | .slashCommand (.option (.string opt)) =>
    if opt == "quest" then .ok .quest
    else if opt == "monster" then .ok .monster
    else if opt == "weapon" then .ok .weapon
    else .error [Cause.msg ("ERROR: cannot translate: " ++ opt)]
  | other => .error [Cause.msg ("ERROR: cannot translate: " ++ other.dbg)]

/-- TranslateTo<About> for Response (translators.rs lines 182-200). -/
def translateToAbout (r : Response) : Except Anyhow About :=
  match r with
  | .slashCommand (.option (.string opt)) =>
    if opt == "quest" then .ok .quest
    else if opt == "monster" then .ok .monster
    else if opt == "weapon" then .ok .weapon
    else if opt == "members" then .ok .members
    else .error [Cause.msg ("ERROR: cannot translate: " ++ opt)]
  | other => .error [Cause.msg ("ERROR: cannot translate: " ++ other.dbg)]

/-- TranslateTo<Vec<User>> lifted over a sequence (translators.rs lines
29-42): elements that fail to translate are silently dropped. -/
def translateToVecUser (items : List Response) : List User :=
  items.filterMap (fun r => (translateToUser r).toOption)

/-- The fatal fallback arm shared by both assemblers (translators.rs
lines 255-266 and 308-319): bailout with the context string and a
LogicError::UnreachableGuard. The expr and info fields come from
stringify!, type_name_of_val and pretty_info!, whose exact strings are
compiler/position dependent; representative constants are used and no
theorem inspects them. -/
def settingsFallback (items : List Response) : Except Anyhow SettingsSubCommands :=
  .error [Cause.msg "Unknown sub-command",
          Cause.logic (.unreachableGuard
            "self: &[mhr_roulette::model::response::Response]"
            (dbgResponses items)
            "translate_to (in mhr_roulette::model::response::translators)")]

/-- TranslateTo<SettingsSubCommands> for &[Response] (translators.rs
lines 202-269). The match arms are tried in source order: info
(two fields), members (option plus user tail, so it also covers
two-field and longer shapes), range (three fields), exclude and target
(four fields), obliterate (two fields); every unmatched shape falls to
the fatal UnreachableGuard arm. -/
def translateToSettingsSub (items : List Response) :
    Except Anyhow SettingsSubCommands :=
  match items with
  | [.slashCommand (.subCommand sc), choice] =>
    if sc == "info" then
      (translateToAbout choice).map SettingsSubCommands.info
    else if sc == "members" then
      (translateToOptions choice).map
        (fun o => SettingsSubCommands.membersCmd o [])
    else if sc == "obliterate" then
      (translateToChoices choice).map SettingsSubCommands.obliterate
    else settingsFallback items
  | [.slashCommand (.subCommand sc), a, b] =>
    if sc == "members" then
      (translateToOptions a).map
        (fun o => SettingsSubCommands.membersCmd o (translateToVecUser [b]))
    else if sc == "range" then do
      let lower ← translateToI64 a
      let upper ← translateToI64 b
      return SettingsSubCommands.range lower upper
    else settingsFallback items
  | .slashCommand (.subCommand sc) :: a :: b :: c :: rest =>
    if sc == "members" then
      (translateToOptions a).map
        (fun o => SettingsSubCommands.membersCmd o
          (translateToVecUser (b :: c :: rest)))
    else
      match rest with
      | [] =>
        if sc == "exclude" then do
          let o ← translateToOptions a
          let ch ← translateToChoices b
          let arg ← translateToString c
          return SettingsSubCommands.exclude o ch arg
        else if sc == "target" then do
          let o ← translateToOptions a
          let ch ← translateToChoices b
          let arg ← translateToString c
          return SettingsSubCommands.target o ch arg
        else settingsFallback items
      | _ => settingsFallback items
  | _ => settingsFallback items

/-- The routing decision of interaction_endpoint
(src/executors/endpoint.rs lines 7-27). The four executors themselves
are separate functions; the Routed value records which executor is
invoked and with which fields. -/
inductive Routed
  | toSettings (opts : List Response)
  | toGenerate (opts : List Response)
  | toStatistics (options : List (String × Response))
  | toVersion
deriving DecidableEq, Repr

/-- The anyhow::bail! message of the unknown-command arm of
interaction_endpoint. -/
def fatalUnknownMsg (first : String × Response) : String :=
  "FATAL ERROR: Got unknown slash commands or component interactions "
    ++ dbgPair first

/-- interaction_endpoint (src/executors/endpoint.rs lines 7-27): split
off the first field, translate it to Commands; on success route to the
matching executor with the remaining fields (values only for settings
and generate); on failure bail with a plain anyhow message; an empty
sequence bails with the other plain message. -/
def interactionEndpointRoute (items : List (String × Response)) :
    Except Anyhow Routed :=
  match items with
  | first :: options =>
    match translateToCommands first.2 with
    | .ok command =>
      .ok (match command with
        | .settings => .toSettings (options.map Prod.snd)
        | .generate => .toGenerate (options.map Prod.snd)
        | .statistics => .toStatistics options
        | .version => .toVersion)
    | .error _ =>
      .error [Cause.msg (fatalUnknownMsg first)]
  | [] => .error [Cause.msg "FATAL ERROR: no interaction"]

/-- Observable actions of a coordinator run. tryLockOk is the successful
iteration of the try_lock polling loop on the shared resource (CONFIG
for the settings workers, CONN for store and the statistics query);
lockStatus acquires the status mutex of the rendezvous pair; dbWrite
and dbRead are conn.execute and conn.iterate; syncAllCall is the
sync_all write-through of the configuration file. -/
inductive Event
  | tryLockOk
  | updateConfig
  | lockStatus
  | lockConn
  | dbWrite
  | dbRead
  | setStatus (s : JobStatus)
  | notifyOne
  | wakeCaller
  | joinWorker
  | syncAllCall
  | replySuccess
deriving DecidableEq, Repr

/-- Index of the first occurrence of an event in a trace (trace length
when absent). -/
def eventIdx (e : Event) (t : List Event) : Nat :=
  t.findIdx (fun x => x == e)

/-- Success-path trace of the range mutation (src/executors/settings.rs
lines 273-322), worker and caller in execution order: the worker wins
the config try_lock, overwrites the range, flips the status under the
status mutex and notifies while still holding it; the caller wakes from
wait_timeout_while once the status is no longer Pending, runs sync_all,
and replies. The worker is spawned detached (its handle is never
joined). -/
def rangeTrace : List Event :=
  [.tryLockOk, .updateConfig, .lockStatus, .setStatus .exitSuccess,
   .notifyOne, .wakeCaller, .syncAllCall, .replySuccess]

/-- Success-path trace of the exclude mutation (settings.rs lines
375-469): as rangeTrace, plus the caller joins the worker before
sync_all. -/
def excludeTrace : List Event :=
  [.tryLockOk, .updateConfig, .lockStatus, .setStatus .exitSuccess,
   .notifyOne, .wakeCaller, .joinWorker, .syncAllCall, .replySuccess]

/-- Success-path trace of the target mutation (settings.rs lines
471-565): identical structure to excludeTrace. -/
def targetTrace : List Event :=
  [.tryLockOk, .updateConfig, .lockStatus, .setStatus .exitSuccess,
   .notifyOne, .wakeCaller, .joinWorker, .syncAllCall, .replySuccess]

/-- Success-path trace of the obliterate mutation (settings.rs lines
567-624): identical structure to rangeTrace (the update clears the
chosen sets; the worker handle is never joined). -/
def obliterateTrace : List Event :=
  [.tryLockOk, .updateConfig, .lockStatus, .setStatus .exitSuccess,
   .notifyOne, .wakeCaller, .syncAllCall, .replySuccess]

/-- Events of the members worker (settings.rs lines 184-231) on the path
where every upsert succeeds: it updates the member set, acquires the
status mutex (line 206, guard held to the end of the block), locks the
connection, runs the upserts, and then at line 225 calls lock() AGAIN
on the status mutex it still holds. std::sync::Mutex is not reentrant,
so the worker never proceeds: the status is never flipped and the
condvar never notified; the trace ends at the second acquisition. -/
def membersSuccessPrefix : List Event :=
  [.tryLockOk, .updateConfig, .lockStatus, .lockConn, .dbWrite,
   .lockStatus]

/-- Trace of the members mutation when an upsert fails (settings.rs
lines 214-222): the status is flipped to ExitFailure under the guard of
line 206 and the condvar notified; the caller wakes, joins the worker
and propagates the error, so sync_all is never reached. -/
def membersFailureTrace : List Event :=
  [.tryLockOk, .updateConfig, .lockStatus, .lockConn, .dbWrite,
   .setStatus .exitFailure, .notifyOne, .wakeCaller, .joinWorker]

/-- Success-path trace of the store worker (src/executors/generate.rs
lines 175-238): the worker wins the connection try_lock, holds the
status mutex across both query batches, flips the status and notifies;
the caller wakes and joins; there is no config persistence on this
path. -/
def storeTrace : List Event :=
  [.tryLockOk, .lockStatus, .dbWrite, .dbWrite, .setStatus .exitSuccess,
   .notifyOne, .wakeCaller, .joinWorker, .replySuccess]

/-- Success-path trace of the statistics query worker
(src/executors/statistics.rs lines 233-355): the worker wins the
connection try_lock, runs the aggregation read, then takes the status
mutex, flips the status and notifies; the caller wakes and joins. -/
def statisticsTrace : List Event :=
  [.tryLockOk, .dbRead, .lockStatus, .setStatus .exitSuccess,
   .notifyOne, .wakeCaller, .joinWorker, .replySuccess]

/-- The caller side of the rendezvous after wait_timeout_while returns
(the identical loop at the tail of every executor): if the status is no
longer Pending the call proceeds (Ok here; the executors then join
and/or sync as their traces show); otherwise, if the wait timed out,
bailout with TLE context and CommandError::TimeLimitExceeded carrying
the command name and the configured wait duration; otherwise the Rust
loop spins forever re-testing the same pair, which no outcome models. -/
def awaitOutcome (command : String) (timeoutMs : Nat) (status : JobStatus)
    (timedOut : Bool) : Option (Except Anyhow Unit) :=
  if status ≠ JobStatus.pending then
    some (.ok ())
  else if timedOut then
    some (.error [Cause.msg "TLE",
      Cause.command (.timeLimitExceeded command timeoutMs)])
  else
    none

/-- Caller wait of the members mutation: 100 ms (settings.rs line 235). -/
def membersAwait : JobStatus → Bool → Option (Except Anyhow Unit) :=
  awaitOutcome "settings members" 100

/-- Caller wait of the range mutation: 100 ms (settings.rs line 295). -/
def rangeAwait : JobStatus → Bool → Option (Except Anyhow Unit) :=
  awaitOutcome "settings range" 100

/-- Caller wait of the exclude mutation: 100 ms (settings.rs line 443). -/
def excludeAwait : JobStatus → Bool → Option (Except Anyhow Unit) :=
  awaitOutcome "settings exclude" 100

/-- Caller wait of the target mutation: 100 ms (settings.rs line 539). -/
def targetAwait : JobStatus → Bool → Option (Except Anyhow Unit) :=
  awaitOutcome "settings target" 100

/-- Caller wait of the obliterate mutation: 100 ms (settings.rs line
599). -/
def obliterateAwait : JobStatus → Bool → Option (Except Anyhow Unit) :=
  awaitOutcome "settings obliterate" 100

/-- Caller wait of the store path: 1000 ms (generate.rs line 218). -/
def storeAwait : JobStatus → Bool → Option (Except Anyhow Unit) :=
  awaitOutcome "generate" 1000

/-- Caller wait of the statistics query: 1000 ms (statistics.rs line
336). -/
def statisticsAwait : JobStatus → Bool → Option (Except Anyhow Unit) :=
  awaitOutcome "statistics query" 1000

/-- The date-predicate construction of the statistics query
(src/executors/statistics.rs lines 258-273), with the external chrono
date validation (valid_date) passed in as an opaque collaborator, as
the spec treats it: both bounds give the BETWEEN form over the two
validated dates, exactly one bound gives the matching one-sided
inequality, no bound gives no predicate. -/
def buildDate (validDate : String → String → Except Anyhow String) :
    Option String → Option String → Except Anyhow (Option String)
  | some b, some e => do
    let b2 ← validDate b "since"
    let e2 ← validDate e "until"
    return some ("date(generated_at) BETWEEN " ++ b2 ++ " AND " ++ e2)
  | some b, none => do
    let b2 ← validDate b "since"
    return some (b2 ++ " <= date(generated_at) ")
  | none, some e => do
    let e2 ← validDate e "until"
    return some ("date(generated_at) <= " ++ e2)
  | none, none => pure none

/-- Source-table selection of the statistics query (statistics.rs line
275): a date-filtered query reads the raw logs table, otherwise the
pre-aggregated statistics table is read. -/
def tableFor (date : Option String) : String :=
  if date.isSome then "logs" else "statistics"

/-- Specification-side reading of an unanchored match of
QUEST_ID_REGEX = ([1-9])-([0-9])+ in a token: some suffix of the token
starts with a digit 1-9, then a dash, then at least one digit 0-9. -/
def ContainsQuestIdPattern (s : String) : Prop :=
  ∃ i c1 c2 c3 rest, s.data.drop i = c1 :: c2 :: c3 :: rest ∧
    isDigit19 c1 = true ∧ c2 = '-' ∧ c3.isDigit = true

/-- A concrete configuration with empty sets, used by the concrete
instantiations below. -/
def cfg0 : Config :=
  { members := ∅,
    settings :=
      { range := { lower := 0, upper := 0 },
        target := { quest := ∅, monster := ∅, weapon := ∅ },
        excluded := { quest := ∅, monster := ∅, weapon := ∅ } } }

/-- A dispatched interaction whose first field is a command marker
outside the four registered command names. -/
def unknownCommandItems : List (String × Response) :=
  [("command", .slashCommand (.command "frobnicate"))]

end Mhr

deriving instance DecidableEq for Except

namespace Mhr

/-- An unanchored match of the quest regex exists in a character list
iff some suffix starts with a digit 1-9, a dash and a digit. -/
theorem questIdIsMatchAux_iff (l : List Char) :
    questIdIsMatchAux l = true ↔
      ∃ i c1 c2 c3 rest, l.drop i = c1 :: c2 :: c3 :: rest ∧
        isDigit19 c1 = true ∧ c2 = '-' ∧ c3.isDigit = true := by
  induction l with
  | nil =>
    apply iff_of_false
    · simp [questIdIsMatchAux]
    · rintro ⟨i, a, b, c, r, hd, -⟩
      simp at hd
  | cons c1 tl ih =>
    cases tl with
    | nil =>
      apply iff_of_false
      · simp [questIdIsMatchAux]
      · rintro ⟨i, a, b, c, r, hd, -⟩
        cases i with
        | zero => simp at hd
        | succ i => simp at hd
    | cons c2 tl2 =>
      cases tl2 with
      | nil =>
        apply iff_of_false
        · simp [questIdIsMatchAux]
        · rintro ⟨i, a, b, c, r, hd, -⟩
          match i with
          | 0 => simp at hd
          | 1 => simp at hd
          | (n + 2) => simp at hd
      | cons c3 rest =>
        rw [questIdIsMatchAux]
        simp only [Bool.or_eq_true, ih]
        constructor
        · rintro (hcond | ⟨i, a, b, c, r, hd, h1, h2, h3⟩)
          · simp only [Bool.and_eq_true, beq_iff_eq] at hcond
            exact ⟨0, c1, c2, c3, rest, rfl, hcond.1.1, hcond.1.2, hcond.2⟩
          · exact ⟨i + 1, a, b, c, r, by simpa using hd, h1, h2, h3⟩
        · rintro ⟨i, a, b, c, r, hd, h1, h2, h3⟩
          cases i with
          | zero =>
            simp only [List.drop_zero, List.cons.injEq] at hd
            obtain ⟨e1, e2, e3, -⟩ := hd
            subst e1; subst e2; subst e3
            exact Or.inl (by simp [h1, h2, h3])
          | succ i =>
            exact Or.inr ⟨i, a, b, c, r, by simpa using hd, h1, h2, h3⟩

/-- QUEST_ID_REGEX.is_match on a token agrees with the specification
predicate. -/
theorem questIdIsMatch_iff (t : String) :
    questIdIsMatch t = true ↔ ContainsQuestIdPattern t :=
  questIdIsMatchAux_iff t.data

/-- The quest-id validator accepts exactly when every token passes the
regex. -/
theorem validateForQuestID_isOk (args : List String) :
    (validateForQuestID args).isOk = true ↔
      args.all (fun questId => questIdIsMatch questId) = true := by
  unfold validateForQuestID
  cases h : args.all (fun questId => questIdIsMatch questId) <;>
    simp [h, Except.isOk, Except.toBool]

/-- collect over Result of the per-column checks succeeds with the
original columns when no column fails the key test. -/
theorem collect_weapon_cols_ok (cols : List String)
    (hf : cols.find? (fun t => !(weaponKeys.contains t)) = none) :
    collectResults (cols.map weaponColCheck) = .ok cols := by
  induction cols with
  | nil => rfl
  | cons c rest ih =>
    rw [List.find?_cons] at hf
    cases hc : (!(weaponKeys.contains c)) with
    | true =>
      simp only [hc] at hf
      exact Option.noConfusion hf
    | false =>
      simp only [hc] at hf
      have hcc : weaponKeys.contains c = true := by simpa using hc
      simp only [List.map_cons, weaponColCheck, hcc, if_true,
        collectResults, ih hf, Except.map]

/-- collect over Result of the per-column checks stops at the first
failing column and returns its error alone. -/
theorem collect_weapon_cols_error (cols : List String) (t : String)
    (hf : cols.find? (fun s => !(weaponKeys.contains s)) = some t) :
    collectResults (cols.map weaponColCheck) =
      .error [Cause.msg "validation error.",
              Cause.query (.invalidWeapon "weapon_keys" t)] := by
  induction cols with
  | nil => simp [List.find?] at hf
  | cons c rest ih =>
    rw [List.find?_cons] at hf
    cases hc : (!(weaponKeys.contains c)) with
    | true =>
      simp only [hc, Option.some.injEq] at hf
      subst hf
      have hcc : weaponKeys.contains c = false := by simpa using hc
      simp only [List.map_cons, weaponColCheck, hcc, Bool.false_eq_true,
        if_false, collectResults]
    | false =>
      simp only [hc] at hf
      have hcc : weaponKeys.contains c = true := by simpa using hc
      simp only [List.map_cons, weaponColCheck, hcc, if_true,
        collectResults, ih hf, Except.map]

/-- smart_cast of a single weapon key yields the singleton set of that
weapon. -/
theorem smartCastWeapon_key (w : Weapon) :
    smartCastWeapon w.intoStr = .ok {w} := by
  cases w <;> decide

/-- The unit test of src/error.rs (an untyped context layer over a
FailedToAggregate root) triages Immediate; the embedding reproduces
it. -/
theorem triage_agrees_with_repo_test :
    anyhowTriage [Cause.msg "context",
                  Cause.query (.failedToAggregate "" "")] =
      some TriageTag.immediate := rfl

/-- A layer element (message, external source, or any context layer,
with or without a typed payload) downcasts to none of the three typed
errors, so all three of its probes are none. -/
theorem layer_probes (c : Cause) (h : c.isLayer = true) :
    Cause.probes c = [none, none, none] := by
  cases c <;> simp_all [Cause.isLayer, Cause.probes,
    Cause.downcastQuery, Cause.downcastLogic, Cause.downcastCommand]

/-- The probes of a list of layer elements are all none. -/
theorem flatMap_layer_probes (contexts : List Cause)
    (h : ∀ c ∈ contexts, c.isLayer = true) :
    ∀ x ∈ contexts.flatMap Cause.probes, x = none := by
  intro x hx
  rw [List.mem_flatMap] at hx
  obtain ⟨c, hc, hx⟩ := hx
  rw [layer_probes c (h c hc)] at hx
  simp at hx
  exact hx

/-- Folding the max step over all-none probes from a none-or-some-none
accumulator stays none or some none. -/
theorem foldl_probeStep_nones (xs : List (Option (Option TriageTag)))
    (h : ∀ x ∈ xs, x = none) :
    ∀ a, (a = none ∨ a = some none) →
      (xs.foldl probeStep a = none ∨ xs.foldl probeStep a = some none) := by
  induction xs with
  | nil => intro a ha; simpa using ha
  | cons x xs ih =>
    intro a ha
    have hx : x = none := h x (by simp)
    subst hx
    have hstep : probeStep a none = some none := by
      rcases ha with rfl | rfl
      · rfl
      · rfl
    rw [List.foldl_cons, hstep]
    exact ih (fun y hy => h y (by simp [hy])) (some none) (Or.inr rfl)

/-- A none or some-none accumulator is absorbed by the first further
probe, so after the double flatten it is indistinguishable from the
empty accumulator. -/
theorem foldl_probeStep_agree
    (rest : List (Option (Option TriageTag))) :
    ∀ a, (a = none ∨ a = some none) →
      ((rest.foldl probeStep a).join.join =
        (rest.foldl probeStep none).join.join) := by
  induction rest with
  | nil =>
    intro a ha
    rcases ha with rfl | rfl
    · rfl
    · rfl
  | cons x rest ih =>
    intro a ha
    have hstep : probeStep a x = some x := by
      rcases ha with rfl | rfl
      · rfl
      · show some (if probeRank none ≤ probeRank x then x else none) = some x
        have h0 : probeRank none ≤ probeRank x := Nat.zero_le _
        rw [if_pos h0]
    rw [List.foldl_cons, List.foldl_cons, hstep]
    rfl

/-- Layer elements at the head of a chain do not change the triage. -/
theorem anyhowTriage_layers_append (contexts rest : List Cause)
    (h : ∀ c ∈ contexts, c.isLayer = true) :
    anyhowTriage (contexts ++ rest) = anyhowTriage rest := by
  unfold anyhowTriage probesMax
  rw [List.flatMap_append, List.foldl_append]
  exact foldl_probeStep_agree _ _
    (foldl_probeStep_nones _ (flatMap_layer_probes contexts h)
      none (Or.inl rfl))

/-- The chain a root cause unfolds to triages to the tag of the root
itself: the only genuine typed element, its source elements being
external. -/
theorem anyhowTriage_chainElems (root : RootCause) :
    anyhowTriage root.chainElems = root.triage := by
  cases root with
  | query e => cases e <;> rfl
  | logic e => cases e; rfl
  | command e => cases e <;> rfl
  | message s => rfl

/-- The most fatal tag found anywhere in a realizable chain is the tag
of its root cause: the layers contribute no tags. -/
theorem mostFatal_chainTags_build (contexts : List Cause)
    (root : RootCause) (h : ∀ c ∈ contexts, c.isLayer = true) :
    mostFatal (chainTags (buildChain contexts root)) = root.triage := by
  unfold buildChain chainTags
  rw [List.filterMap_append]
  have h1 : contexts.filterMap Cause.foundTag = [] := by
    rw [List.filterMap_eq_nil_iff]
    intro c hc
    have hl := h c hc
    cases c <;> simp_all [Cause.isLayer, Cause.foundTag]
  rw [h1, List.nil_append]
  cases root with
  | query e => cases e <;> rfl
  | logic e => cases e; rfl
  | command e => cases e <;> rfl
  | message s => rfl

/-- C1: on every error chain this program can build — any stack of
context layers (strings, anyhow! messages, or typed error values used
as context) over a typed or untyped root cause — the chain triage of
src/error.rs returns the most fatal triage tag found anywhere in the
cause chain, because a context layer is a ContextError chain element
whose downcast_ref to each typed error fails, and no typed error has
another typed error as #[source], so the root is the only element that
carries a tag and the full-chain walk finds it under any wrapper. In
particular the claim's example — a FailedToAggregate (Immediate) root
wrapped by an InvalidArgument (NotBad) context layer — triages as
Immediate, not as the wrapper's NotBad. -/
theorem c1_triage_most_fatal_on_chains :
    (∀ (contexts : List Cause) (root : RootCause),
      (∀ c ∈ contexts, c.isLayer = true) →
      anyhowTriage (buildChain contexts root) =
        mostFatal (chainTags (buildChain contexts root))) ∧
    anyhowTriage [Cause.contextCommand (.invalidArgument "bad"),
                  Cause.query (.failedToAggregate "raw" "query")] =
      some TriageTag.immediate := by
  constructor
  · intro contexts root h
    rw [mostFatal_chainTags_build contexts root h]
    show anyhowTriage (contexts ++ root.chainElems) = _
    rw [anyhowTriage_layers_append contexts root.chainElems h,
      anyhowTriage_chainElems]
  · rfl

/-- Witness for C1: the chain of the claim's example, built as the
program builds it, triages to the most fatal tag found in it. -/
theorem c1_triage_witness :
    anyhowTriage (buildChain [Cause.contextCommand (.invalidArgument "bad")]
        (.query (.failedToAggregate "raw" "query"))) =
      mostFatal (chainTags (buildChain
        [Cause.contextCommand (.invalidArgument "bad")]
        (.query (.failedToAggregate "raw" "query")))) :=
  c1_triage_most_fatal_on_chains.1
    [Cause.contextCommand (.invalidArgument "bad")]
    (.query (.failedToAggregate "raw" "query")) (by decide)

/-- C2 counterexample: in the success-path trace of the range mutation,
the completion signal (cvar.notify_one) occurs, sync_all occurs, and
the signal strictly precedes the persistence — so completion IS
signalled while the updated snapshot is not yet persisted, refuting the
claim that the update and the persistence both happen before the worker
signals completion. -/
theorem c2_signal_precedes_persistence :
    Event.notifyOne ∈ rangeTrace ∧ Event.syncAllCall ∈ rangeTrace ∧
    eventIdx Event.notifyOne rangeTrace <
      eventIdx Event.syncAllCall rangeTrace := by decide

/-- C2 amended: for the range, exclude, target and obliterate mutations
the worker updates the in-memory Config, then flips the status and
signals, and the caller persists via sync_all only after the rendezvous
completes and before success is reported (update before flip before
signal before sync_all before reply). The members worker never reaches
the signal on its success path (it re-locks the status mutex it already
holds, so no status flip, no notify and no sync_all appear in its
trace); on its failure path the update precedes the ExitFailure flip
and signal, and sync_all is never reached. -/
theorem c2_update_signal_persist_order :
    (eventIdx Event.updateConfig rangeTrace <
        eventIdx (Event.setStatus .exitSuccess) rangeTrace ∧
      eventIdx (Event.setStatus .exitSuccess) rangeTrace <
        eventIdx Event.notifyOne rangeTrace ∧
      eventIdx Event.notifyOne rangeTrace <
        eventIdx Event.syncAllCall rangeTrace ∧
      eventIdx Event.syncAllCall rangeTrace <
        eventIdx Event.replySuccess rangeTrace) ∧
    (eventIdx Event.updateConfig excludeTrace <
        eventIdx (Event.setStatus .exitSuccess) excludeTrace ∧
      eventIdx (Event.setStatus .exitSuccess) excludeTrace <
        eventIdx Event.notifyOne excludeTrace ∧
      eventIdx Event.notifyOne excludeTrace <
        eventIdx Event.syncAllCall excludeTrace ∧
      eventIdx Event.syncAllCall excludeTrace <
        eventIdx Event.replySuccess excludeTrace) ∧
    (eventIdx Event.updateConfig targetTrace <
        eventIdx (Event.setStatus .exitSuccess) targetTrace ∧
      eventIdx (Event.setStatus .exitSuccess) targetTrace <
        eventIdx Event.notifyOne targetTrace ∧
      eventIdx Event.notifyOne targetTrace <
        eventIdx Event.syncAllCall targetTrace ∧
      eventIdx Event.syncAllCall targetTrace <
        eventIdx Event.replySuccess targetTrace) ∧
    (eventIdx Event.updateConfig obliterateTrace <
        eventIdx (Event.setStatus .exitSuccess) obliterateTrace ∧
      eventIdx (Event.setStatus .exitSuccess) obliterateTrace <
        eventIdx Event.notifyOne obliterateTrace ∧
      eventIdx Event.notifyOne obliterateTrace <
        eventIdx Event.syncAllCall obliterateTrace ∧
      eventIdx Event.syncAllCall obliterateTrace <
        eventIdx Event.replySuccess obliterateTrace) ∧
    (Event.notifyOne ∉ membersSuccessPrefix ∧
      Event.setStatus .exitSuccess ∉ membersSuccessPrefix ∧
      Event.syncAllCall ∉ membersSuccessPrefix) ∧
    (eventIdx Event.updateConfig membersFailureTrace <
        eventIdx (Event.setStatus .exitFailure) membersFailureTrace ∧
      eventIdx (Event.setStatus .exitFailure) membersFailureTrace <
        eventIdx Event.notifyOne membersFailureTrace ∧
      Event.syncAllCall ∉ membersFailureTrace) := by decide

/-- C3: whenever the wait ends with the status still Pending and the
timeout elapsed, each caller raises TimeLimitExceeded carrying its own
command name and a wait_for equal to its configured timeout: 100 ms for
every settings mutation, 1000 ms for the store path and the statistics
query. The final clause shows the await never returns success while the
status is still Pending, and the trace facts show each worker flips the
status only after performing its mutation, so success is never reported
while the shared state is unchanged. -/
theorem c3_timeout_behavior :
    (membersAwait .pending true = some (.error [Cause.msg "TLE",
        Cause.command (.timeLimitExceeded "settings members" 100)]) ∧
      rangeAwait .pending true = some (.error [Cause.msg "TLE",
        Cause.command (.timeLimitExceeded "settings range" 100)]) ∧
      excludeAwait .pending true = some (.error [Cause.msg "TLE",
        Cause.command (.timeLimitExceeded "settings exclude" 100)]) ∧
      targetAwait .pending true = some (.error [Cause.msg "TLE",
        Cause.command (.timeLimitExceeded "settings target" 100)]) ∧
      obliterateAwait .pending true = some (.error [Cause.msg "TLE",
        Cause.command (.timeLimitExceeded "settings obliterate" 100)]) ∧
      storeAwait .pending true = some (.error [Cause.msg "TLE",
        Cause.command (.timeLimitExceeded "generate" 1000)]) ∧
      statisticsAwait .pending true = some (.error [Cause.msg "TLE",
        Cause.command (.timeLimitExceeded "statistics query" 1000)])) ∧
    (eventIdx Event.updateConfig rangeTrace <
        eventIdx (Event.setStatus .exitSuccess) rangeTrace ∧
      eventIdx Event.updateConfig excludeTrace <
        eventIdx (Event.setStatus .exitSuccess) excludeTrace ∧
      eventIdx Event.updateConfig targetTrace <
        eventIdx (Event.setStatus .exitSuccess) targetTrace ∧
      eventIdx Event.updateConfig obliterateTrace <
        eventIdx (Event.setStatus .exitSuccess) obliterateTrace ∧
      eventIdx Event.dbWrite storeTrace <
        eventIdx (Event.setStatus .exitSuccess) storeTrace ∧
      eventIdx Event.dbRead statisticsTrace <
        eventIdx (Event.setStatus .exitSuccess) statisticsTrace) ∧
    (∀ command timeoutMs status timedOut,
      awaitOutcome command timeoutMs status timedOut = some (.ok ()) →
      status ≠ JobStatus.pending) := by
  refine ⟨by decide, by decide, ?_⟩
  intro command timeoutMs status timedOut h hpend
  subst hpend
  cases timedOut <;> simp [awaitOutcome] at h

/-- Witness for C3: the final clause applied to the range await at a
concrete flipped status, the equality hypothesis discharged by rfl. -/
theorem c3_timeout_behavior_witness :
    JobStatus.exitSuccess ≠ JobStatus.pending :=
  c3_timeout_behavior.2.2 "settings range" 100 .exitSuccess true rfl

/-- C4: validate_for with target Weapon accepts a token sequence iff
every token is in the fixed weapon-key list; whenever it rejects, the
error is InvalidArgument whose payload is exactly the comma-join of all
the invalid tokens in their original order (the filter keeps order and
drops no invalid token). -/
theorem c4_weapon_validator (args : List String) :
    ((validateForWeapon args).isOk = true ↔ ∀ t ∈ args, t ∈ weaponKeys) ∧
    (∀ e, validateForWeapon args = .error e →
      e = .invalidArgument (String.intercalate ", "
            (args.filter (fun t => decide (t ∉ weaponKeys))))) := by
  unfold validateForWeapon
  cases h : args.all (fun weaponKey => weaponKeys.contains weaponKey) with
  | true =>
    refine ⟨?_, ?_⟩
    · simp only [h, if_true]
      simp only [Except.isOk, Except.toBool, true_iff]
      intro t ht
      have h2 := List.all_eq_true.mp h t ht
      simpa using h2
    · intro e he
      simp only [h, if_true] at he
      exact absurd he (by simp)
  | false =>
    refine ⟨?_, ?_⟩
    · simp only [h, Bool.false_eq_true, if_false]
      simp only [Except.isOk, Except.toBool, Bool.false_eq_true, false_iff]
      intro hall
      rw [List.all_eq_false] at h
      obtain ⟨t, ht, hf⟩ := h
      exact hf (by simpa using hall t ht)
    · intro e he
      simp only [h, Bool.false_eq_true, if_false, Except.error.injEq] at he
      subst he
      congr 1
      apply congrArg
      apply List.filter_congr
      intro t _
      simp

/-- Witness for C4: on tokens bow, foo, bar the rejection payload is
exactly the two invalid tokens, comma-joined in order. -/
theorem c4_weapon_validator_witness :
    CommandError.invalidArgument "foo, bar" =
      .invalidArgument (String.intercalate ", "
        (["bow", "foo", "bar"].filter (fun t => decide (t ∉ weaponKeys)))) :=
  (c4_weapon_validator ["bow", "foo", "bar"]).2 _ (by decide)

/-- C5 counterexample: with the filter string foo,bar both keys are
invalid, yet valid_weapon returns the single-key error for foo alone
(collect over Result stops at the first error), so the error does not
collect all invalid keys. -/
theorem c5_first_invalid_only :
    valid_weapon "foo,bar" =
      .error [Cause.msg "validation error.",
              Cause.query (.invalidWeapon "weapon_keys" "foo")] := by
  decide

/-- C5 amended: the comma-separated filter is split, trimmed and checked
key by key against the fixed weapon-key list, but the collection over
Result short-circuits: when any key is invalid the result is the
InvalidWeapon error for the FIRST invalid key only; when every key is
valid the result joins the keys back with a comma. -/
theorem c5_weapon_filter_short_circuit (columns : String) :
    match ((splitComma columns).map rustTrim).find?
        (fun t => !(weaponKeys.contains t)) with
    | some t => valid_weapon columns =
        .error [Cause.msg "validation error.",
                Cause.query (.invalidWeapon "weapon_keys" t)]
    | none => valid_weapon columns =
        .ok (String.intercalate ", " ((splitComma columns).map rustTrim)) := by
  cases hf : ((splitComma columns).map rustTrim).find?
      (fun t => !(weaponKeys.contains t)) with
  | some t =>
    show valid_weapon columns = _
    unfold valid_weapon
    rw [collect_weapon_cols_error _ t hf]
    rfl
  | none =>
    show valid_weapon columns = _
    unfold valid_weapon
    rw [collect_weapon_cols_ok _ hf]
    rfl

/-- C6 counterexample: dispatching an interaction whose first field is
an unknown command marker yields the plain bail! message — a chain with
a single untyped cause, no LogicError anywhere in it, and a triage of
none — not the UnreachableGuard/Immediate error the claim requires. -/
theorem c6_unknown_command_generic_error :
    interactionEndpointRoute unknownCommandItems =
      .error [Cause.msg (fatalUnknownMsg
        ("command", .slashCommand (.command "frobnicate")))] ∧
    anyhowTriage [Cause.msg (fatalUnknownMsg
        ("command", .slashCommand (.command "frobnicate")))] = none ∧
    (([Cause.msg (fatalUnknownMsg
        ("command", .slashCommand (.command "frobnicate")))].all
      (fun c => c.downcastLogic.isNone)) = true) := ⟨rfl, rfl, rfl⟩

/-- C6 amended: whenever the first field fails the Commands translation
the dispatcher raises the generic FATAL ERROR anyhow message, which
triages to none; only the sub-command assembler's fallback raises the
typed LogicError::UnreachableGuard, which triages to Immediate, and an
unmatched field sequence (for instance the empty one) does reach that
fallback. -/
theorem c6_dispatcher_vs_assembler_errors :
    (∀ (first : String × Response) (options : List (String × Response)) e,
      translateToCommands first.2 = .error e →
      interactionEndpointRoute (first :: options) =
        .error [Cause.msg (fatalUnknownMsg first)] ∧
      anyhowTriage [Cause.msg (fatalUnknownMsg first)] = none) ∧
    (∀ items : List Response, ∃ g,
      settingsFallback items =
        .error [Cause.msg "Unknown sub-command", Cause.logic g] ∧
      anyhowTriage [Cause.msg "Unknown sub-command", Cause.logic g] =
        some TriageTag.immediate) ∧
    translateToSettingsSub [] = settingsFallback [] := by
  refine ⟨?_, ?_, rfl⟩
  · intro first options e h
    refine ⟨?_, rfl⟩
    simp only [interactionEndpointRoute, h]
  · intro items
    exact ⟨.unreachableGuard
      "self: &[mhr_roulette::model::response::Response]"
      (dbgResponses items)
      "translate_to (in mhr_roulette::model::response::translators)",
      rfl, rfl⟩

/-- Witness for C6: the dispatcher clause applied to a concrete unknown
command marker. -/
theorem c6_dispatcher_witness :
    interactionEndpointRoute
        [(("command" : String), Response.slashCommand (.command "details"))] =
      .error [Cause.msg (fatalUnknownMsg
        ("command", .slashCommand (.command "details")))] ∧
    anyhowTriage [Cause.msg (fatalUnknownMsg
        ("command", .slashCommand (.command "details")))] = none :=
  c6_dispatcher_vs_assembler_errors.1
    ("command", .slashCommand (.command "details")) [] _ rfl

/-- C7 counterexample: the submitted pair (0, -1) has lower > upper, yet
the stored upper is 2 to the 64 minus 1 (the as-usize wrap of -1), not
the submitted -1 — so the stored Range does not hold exactly the
submitted values for every such pair. -/
theorem c7_negative_upper_wraps :
    ((0 : Int) > (-1 : Int)) ∧
    (rangeBody 0 (-1) cfg0).settings.range.upper = 18446744073709551615 ∧
    ¬(((rangeBody 0 (-1) cfg0).settings.range.upper : Int) = (-1 : Int)) := by
  refine ⟨by decide, by decide, by decide⟩

/-- C7 amended: for every submitted pair with lower > upper the range
mutation stores exactly the submitted values converted by the Rust
as-usize cast (reduction modulo 2 to the 64) — no clamping, swapping or
rejection, and no other Config field changes; whenever the submitted
values are nonnegative and below 2 to the 64 the stored values are
exactly the submitted integers. -/
theorem c7_range_stores_submitted (lower upper : Int) (cfg : Config)
    (h : lower > upper) :
    (rangeBody lower upper cfg).settings.range =
      { lower := i64AsUsize lower, upper := i64AsUsize upper } ∧
    (rangeBody lower upper cfg).settings.target = cfg.settings.target ∧
    (rangeBody lower upper cfg).settings.excluded = cfg.settings.excluded ∧
    (rangeBody lower upper cfg).members = cfg.members ∧
    (0 ≤ upper → lower < 2 ^ 64 →
      ((rangeBody lower upper cfg).settings.range.lower : Int) = lower ∧
      ((rangeBody lower upper cfg).settings.range.upper : Int) = upper) := by
  refine ⟨rfl, rfl, rfl, rfl, ?_⟩
  intro hu hl
  have h0l : (0 : Int) ≤ lower := le_trans hu (le_of_lt h)
  have hul : upper < 2 ^ 64 := lt_trans h hl
  constructor
  · show ((i64AsUsize lower : Nat) : Int) = lower
    unfold i64AsUsize
    rw [Int.emod_eq_of_lt h0l hl, Int.toNat_of_nonneg h0l]
  · show ((i64AsUsize upper : Nat) : Int) = upper
    unfold i64AsUsize
    rw [Int.emod_eq_of_lt hu hul, Int.toNat_of_nonneg hu]

/-- Witness for C7: the submitted inverted pair (6, 3) is stored exactly
as submitted. -/
theorem c7_range_witness :
    (rangeBody 6 3 cfg0).settings.range = { lower := 6, upper := 3 } ∧
    ((rangeBody 6 3 cfg0).settings.range.lower : Int) = 6 ∧
    ((rangeBody 6 3 cfg0).settings.range.upper : Int) = 3 := by
  obtain ⟨h1, -, -, -, h5⟩ := c7_range_stores_submitted 6 3 cfg0 (by decide)
  obtain ⟨h6, h7⟩ := h5 (by decide) (by decide)
  exact ⟨h1.trans (by decide), h6, h7⟩

/-- C8: with both bounds validated the date predicate is the inclusive
SQL BETWEEN over the two validated bounds; with exactly one bound it is
the matching one-sided inequality; with no bound there is no predicate
and the query reads the pre-aggregated statistics table, while every
present predicate makes the query read the raw logs table. -/
theorem c8_date_predicate_and_table
    (vd : String → String → Except Anyhow String) (s u b e : String) :
    (vd s "since" = .ok b → vd u "until" = .ok e →
      buildDate vd (some s) (some u) =
        .ok (some ("date(generated_at) BETWEEN " ++ b ++ " AND " ++ e))) ∧
    (vd s "since" = .ok b →
      buildDate vd (some s) none =
        .ok (some (b ++ " <= date(generated_at) "))) ∧
    (vd u "until" = .ok e →
      buildDate vd none (some u) =
        .ok (some ("date(generated_at) <= " ++ e))) ∧
    (buildDate vd none none = .ok none ∧ tableFor none = "statistics") ∧
    (∀ d : String, tableFor (some d) = "logs") := by
  refine ⟨?_, ?_, ?_, ⟨rfl, rfl⟩, fun d => rfl⟩
  · intro h1 h2
    simp only [buildDate]
    rw [h1]
    show (vd u "until").bind _ = _
    rw [h2]
    rfl
  · intro h1
    simp only [buildDate]
    rw [h1]
    rfl
  · intro h2
    simp only [buildDate]
    rw [h2]
    rfl

/-- Witness for C8: the BETWEEN clause at concrete validated dates. -/
theorem c8_date_predicate_witness :
    buildDate (fun d _ => .ok d) (some "2021-01-01") (some "2021-12-31") =
      .ok (some "date(generated_at) BETWEEN 2021-01-01 AND 2021-12-31") ∧
    tableFor (some "date(generated_at) BETWEEN 2021-01-01 AND 2021-12-31") =
      "logs" :=
  ⟨(c8_date_predicate_and_table (fun d _ => .ok d) "2021-01-01" "2021-12-31"
      "2021-01-01" "2021-12-31").1 rfl rfl,
   rfl⟩

/-- C9: for any configuration whose excluded-weapon set does not contain
the weapon, running the exclude add weapon mutation body on its key and
then the exclude remove weapon mutation body on the same key returns
exactly the starting configuration: the excluded-weapon set is restored
and every other field is untouched. -/
theorem c9_exclude_add_remove_inverse (cfg : Config) (w : Weapon)
    (h : w ∉ cfg.settings.excluded.weapon) :
    (excludeBody .add .weapon w.intoStr cfg).bind
      (fun cfg1 => excludeBody .remove .weapon w.intoStr cfg1) = .ok cfg := by
  have hweap : (cfg.settings.excluded.weapon ∪ {w}) \ {w} =
      cfg.settings.excluded.weapon := by
    rw [Finset.union_sdiff_right, Finset.sdiff_singleton_eq_erase,
      Finset.erase_eq_of_not_mem h]
  simp [excludeBody, smartCastWeapon_key, Except.bind, Except.map, hweap]

/-- Witness for C9: add bow then remove bow on the empty configuration
returns the empty configuration. -/
theorem c9_exclude_witness :
    (excludeBody .add .weapon (Weapon.intoStr .bow) cfg0).bind
      (fun cfg1 => excludeBody .remove .weapon (Weapon.intoStr .bow) cfg1) =
      .ok cfg0 :=
  c9_exclude_add_remove_inverse cfg0 .bow (by decide)

/-- C10: validate_for with target QuestID accepts a token sequence iff
every token contains, somewhere, a digit 1-9 followed by a dash and at
least one digit (the unanchored QUEST_ID_REGEX); hence the padded token
x1-2y is accepted while 0-3 is rejected (its only pre-dash digit is 0,
which the class [1-9] excludes even though quest rank 0 exists). -/
theorem c10_quest_id_regex_semantics :
    (∀ args : List String,
      ((validateForQuestID args).isOk = true ↔
        ∀ t ∈ args, ContainsQuestIdPattern t)) ∧
    (validateForQuestID ["x1-2y"]).isOk = true ∧
    validateForQuestID ["0-3"] =
      .error (.invalidArgument "0-3") := by
  refine ⟨?_, by decide, by rfl⟩
  intro args
  rw [validateForQuestID_isOk, List.all_eq_true]
  exact forall₂_congr (fun t _ => questIdIsMatch_iff t)

/-- Witness for C10: the accepted padded token does contain the pattern. -/
theorem c10_quest_id_witness : ContainsQuestIdPattern "x1-2y" :=
  (c10_quest_id_regex_semantics.1 ["x1-2y"]).mp (by decide) "x1-2y" (by simp)

end Mhr
